import Mathlib

/-!
Shallow embedding of `src/server.js` (the Express Spotify proxy: token cache,
`/login`, `/callback`, `/spotify`, `/spotify/stop`, `/spotify/play/:trackUri`,
and the helper `fetchWithSpotifyAuth`).

The remote HTTP world (axios) is modelled as oracle inputs: each handler takes
the result the outbound call would produce (`Except AxiosError _`, where
`AxiosError.response = none` models a network failure with no HTTP response).
Each handler returns the new token-store state, the HTTP response it writes,
and the list of outbound calls it performed, so that properties such as
"performs zero outbound calls" or "never posts to the token endpoint" are
statable.
-/

namespace SpotifyProxy

/-- The `error` object inside a Spotify error body (`data.error`), of which the
code reads only `.message` (which may be absent). -/
structure SpotifyErr where
  message : Option String
deriving DecidableEq, Repr

/-- A provider error body (`error.response.data`); the code only dereferences
its `.error` field, which may be absent. -/
structure ProviderErrBody where
  error : Option SpotifyErr
deriving DecidableEq, Repr

/-- An HTTP error response attached to an axios error: `error.response`. -/
structure ErrResponse where
  status : Nat
  data : ProviderErrBody
deriving DecidableEq, Repr

/-- An axios error: `response = none` models a network-level failure with no
HTTP response (`error.response` undefined); `message` is `error.message`. -/
structure AxiosError where
  response : Option ErrResponse
  message : String
deriving DecidableEq, Repr

/-- An artist object from the Spotify API; the code reads only `.name`. -/
structure Artist where
  name : String
deriving DecidableEq, Repr

/-- A track object from the Spotify API, with the fields the code reads. -/
structure Track where
  id : String
  name : String
  artists : List Artist
  uri : String
deriving DecidableEq, Repr

/-- Body of a top-tracks response: `topTracksResponse.data` with its `items`. -/
structure TopTracksData where
  items : List Track
deriving DecidableEq, Repr

/-- Body of a currently-playing response: `playingResponse.data`, whose `item`
is absent when nothing is playing. -/
structure PlayingData where
  item : Option Track
deriving DecidableEq, Repr

/-- Body of a token-endpoint response, as destructured by `/callback`:
`const { access_token, refresh_token } = tokenResponse.data` — either field
may be absent (then the destructured value is `undefined`, here `none`). -/
structure TokenData where
  access_token : Option String
  refresh_token : Option String
deriving DecidableEq, Repr

/-- The token store: the module-level mutable variables `cachedAccessToken`
and `cachedRefreshToken`, both initialized to `null` (`none`). -/
structure Store where
  cachedAccessToken : Option String
  cachedRefreshToken : Option String
deriving DecidableEq, Repr

/-- Environment configuration (`process.env.*`) read by the handlers. -/
structure Env where
  clientId : String
  clientSecret : String
  redirectUri : String
deriving DecidableEq, Repr

def SPOTIFY_TOP_TRACKS_URL : String :=
  "https://api.spotify.com/v1/me/top/tracks?limit=10"

def SPOTIFY_PLAYER_URL : String := "https://api.spotify.com/v1/me/player"

/-- Outbound HTTP calls a handler can perform, recorded as a trace.
`postToken` is the POST to `https://accounts.spotify.com/api/token`
(the provider token endpoint, i.e. a refresh / exchange call). -/
inductive OutCall where
  | get (url : String) (bearer : Option String)
  | postToken
  | putPause (bearer : Option String)
  | putPlay (uris : List String) (bearer : Option String)
deriving DecidableEq, Repr

/-- Projection of a track used for the `topTracks` list in `/spotify`. -/
structure ProjTrack where
  id : String
  name : String
  artist : String
  uri : String
deriving DecidableEq, Repr

/-- Projection of the currently playing track in `/spotify`. -/
structure PlayingProj where
  name : String
  artist : String
  uri : String
deriving DecidableEq, Repr

/-- The success body of `GET /spotify`. -/
structure SpotifyOkBody where
  status : String
  topTracks : List ProjTrack
  currentlyPlaying : Option PlayingProj
  note : String
deriving DecidableEq, Repr

/-- The value stored in the `error` field of an error body:
`err.response?.data || err.message` yields the provider payload when an HTTP
response exists, otherwise a message string; the stop/play handlers use a
fixed message string instead. -/
inductive ErrValue where
  | payload (b : ProviderErrBody)
  | message (m : String)
deriving DecidableEq, Repr

/-- A JSON error body `{error, details?}`. -/
structure ErrBody where
  error : ErrValue
  details : Option String
deriving DecidableEq, Repr

/-- JSON bodies the server can send. -/
inductive Body where
  | callbackOk (message : String) (access_token refresh_token : Option String)
  | spotifyOk (b : SpotifyOkBody)
  | simpleOk (status message : String)
  | err (e : ErrBody)
deriving DecidableEq, Repr

/-- An HTTP response written by a handler: a redirect (`res.redirect`) or a
JSON body with a status code (`res.json` is status 200,
`res.status(500).json` is status 500). -/
inductive Response where
  | redirect (location : String)
  | json (status : Nat) (body : Body)
deriving DecidableEq, Repr

def Response.isRedirect : Response → Bool
  | .redirect _ => true
  | _ => false

/-- Result of one handler invocation: the token store afterwards, the HTTP
response written, and the outbound calls performed, in order. -/
structure HandlerOut where
  store : Store
  response : Response
  calls : List OutCall
deriving DecidableEq, Repr

/-- `err.response?.data || err.message`. -/
def errorPayload (e : AxiosError) : ErrValue :=
  match e.response with
  | some r => .payload r.data
  | none => .message e.message

/-- Model of the JavaScript builtin `String.prototype.toLowerCase`, restricted
to ASCII case mapping (sufficient for matching the ASCII pattern "expired"). -/
def lowerChars (s : String) : List Char := s.toList.map Char.toLower

/-- The expiry classification inside `fetchWithSpotifyAuth`:
`status === 401 || (spotifyError && spotifyError.message &&
spotifyError.message.toLowerCase().includes("expired"))`, where
`status = error.response?.status` and
`spotifyError = error.response?.data?.error`. -/
def isExpiredAuthError (e : AxiosError) : Bool :=
  match e.response with
  | none => false
  | some r =>
    r.status == 401 ||
      match r.data.error with
      | some se =>
        match se.message with
        | some m => !(m == "") && decide ("expired".toList <:+: lowerChars m)
        | none => false
      | none => false

/-- Result of `fetchWithSpotifyAuth`: the data on success; `redirected` when
the helper classified the error as expired-token and issued
`res.redirect("/login")`, returning `null`; `thrown` when it re-threw. -/
inductive FetchStep (α : Type) where
  | success (d : α)
  | redirected
  | thrown (e : AxiosError)
deriving DecidableEq, Repr

/-- `fetchWithSpotifyAuth(url, headers, res)` applied to the result the
outbound `axios.get` produced. -/
def fetchWithSpotifyAuth {α : Type} (r : Except AxiosError α) : FetchStep α :=
  match r with
  | .ok d => .success d
  | .error e => if isExpiredAuthError e then .redirected else .thrown e

/-- `track.artists.map(a => a.name).join(", ")`. -/
def joinArtists (arts : List Artist) : String :=
  String.intercalate ", " (arts.map Artist.name)

/-- The projection applied to each top track. -/
def projTrack (t : Track) : ProjTrack :=
  { id := t.id, name := t.name, artist := joinArtists t.artists, uri := t.uri }

/-- The projection applied to the currently playing item. -/
def projPlaying (t : Track) : PlayingProj :=
  { name := t.name, artist := joinArtists t.artists, uri := t.uri }

/-- Hex digit used by percent-encoding. -/
def toHexDigit (n : Nat) : Char :=
  if n < 10 then Char.ofNat (48 + n) else Char.ofNat (55 + n)

/-- Hex digit value used by percent-decoding. -/
def hexVal (c : Char) : Option Nat :=
  if 48 ≤ c.toNat ∧ c.toNat ≤ 57 then some (c.toNat - 48)
  else if 97 ≤ c.toNat ∧ c.toNat ≤ 102 then some (c.toNat - 87)
  else if 65 ≤ c.toNat ∧ c.toNat ≤ 70 then some (c.toNat - 55)
  else none

/-- Model of the JavaScript builtin `decodeURIComponent`, restricted to
percent-encoded single-byte sequences: `%XY` with two hex digits decodes to
the character with that code, other characters pass through, and a `%` not
followed by two hex digits is malformed (`none`, modelling the thrown
`URIError`). Multi-byte UTF-8 validation of the real builtin is not
modelled. -/
def percentDecode : List Char → Option (List Char)
  | [] => some []
  | '%' :: h :: l :: rest =>
    match hexVal h, hexVal l with
    | some a, some b => (percentDecode rest).map (Char.ofNat (16 * a + b) :: ·)
    | _, _ => none
  | '%' :: _ => none
  | c :: rest => (percentDecode rest).map (c :: ·)

/-- `decodeURIComponent` on strings; `none` models a thrown `URIError`. -/
def decodeURIComponent (s : String) : Option String :=
  (percentDecode s.toList).map List.asString

/-- Model of the JavaScript builtin `encodeURIComponent`, restricted to
single-byte characters: unreserved characters pass through, other code points
below 256 become `%XY`. -/
def percentEncodeChar (c : Char) : List Char :=
  if c.isAlphanum || c = '-' || c = '_' || c = '.' || c = '~' || c = '!' ||
      c = '*' || c = Char.ofNat 39 || c = '(' || c = ')' then [c]
  else if c.toNat < 256 then
    ['%', toHexDigit (c.toNat / 16), toHexDigit (c.toNat % 16)]
  else [c]

/-- `encodeURIComponent` on strings. -/
def encodeURIComponent (s : String) : String :=
  ⟨(s.toList.map percentEncodeChar).flatten⟩

def loginScopes : String :=
  "user-top-read user-read-currently-playing user-modify-playback-state"

/-- The authorize URL built by `GET /login`. -/
def authorizeURL (env : Env) : String :=
  "https://accounts.spotify.com/authorize?client_id=" ++ env.clientId ++
    "&response_type=code&redirect_uri=" ++ encodeURIComponent env.redirectUri ++
    "&scope=" ++ encodeURIComponent loginScopes

/-- `GET /login`: redirect to the provider authorize URL; no outbound call,
no store mutation. -/
def handleLogin (env : Env) (st : Store) : HandlerOut :=
  { store := st, response := .redirect (authorizeURL env), calls := [] }

/-- `GET /callback`: POSTs the authorization code to the token endpoint
(`exchange` is the oracle result of that POST). On success it overwrites both
cached tokens with the destructured fields and echoes them as JSON; on failure
it answers 500 with `err.response?.data || err.message` and leaves the store
alone. -/
def handleCallback (st : Store) (exchange : Except AxiosError TokenData) :
    HandlerOut :=
  match exchange with
  | .ok d =>
    { store := { cachedAccessToken := d.access_token
                 cachedRefreshToken := d.refresh_token }
      response := .json 200
        (.callbackOk "✅ Tokens obtained successfully." d.access_token
          d.refresh_token)
      calls := [.postToken] }
  | .error e =>
    { store := st
      response := .json 500 (.err { error := errorPayload e, details := none })
      calls := [.postToken] }

/-- Oracle results for the two `GET`s that `GET /spotify` can perform. -/
structure RemoteApi where
  topTracks : Except AxiosError TopTracksData
  currentlyPlaying : Except AxiosError PlayingData

def spotifyNote : String :=
  "If token expires, you’ll automatically be redirected to /login."

/-- `GET /spotify`: short-circuits to a redirect when no access token is
cached; otherwise fetches top tracks and currently-playing through
`fetchWithSpotifyAuth` (redirecting on expired-token classification),
projects the fields, and answers the combined JSON; a re-thrown error is
caught and answered as 500 with `err.response?.data || err.message`. -/
def handleSpotify (st : Store) (api : RemoteApi) : HandlerOut :=
  match st.cachedAccessToken with
  | none => { store := st, response := .redirect "/login", calls := [] }
  | some tok =>
    let c1 : OutCall := .get SPOTIFY_TOP_TRACKS_URL (some tok)
    match fetchWithSpotifyAuth api.topTracks with
    | .redirected => { store := st, response := .redirect "/login", calls := [c1] }
    | .thrown e =>
      { store := st
        response := .json 500 (.err { error := errorPayload e, details := none })
        calls := [c1] }
    | .success tt =>
      let c2 : OutCall := .get (SPOTIFY_PLAYER_URL ++ "/currently-playing") (some tok)
      match fetchWithSpotifyAuth api.currentlyPlaying with
      | .redirected =>
        { store := st, response := .redirect "/login", calls := [c1, c2] }
      | .thrown e =>
        { store := st
          response := .json 500 (.err { error := errorPayload e, details := none })
          calls := [c1, c2] }
      | .success pd =>
        { store := st
          response := .json 200 (.spotifyOk
            { status := "success"
              topTracks := tt.items.map projTrack
              currentlyPlaying := pd.item.map projPlaying
              note := spotifyNote })
          calls := [c1, c2] }

/-- `PUT /spotify/stop`: bearer token from `req.query.token` (absent query
parameter modelled as `none`); PUTs pause; on any error answers a fixed 500
body with `details = err.message`; never touches the store. -/
def handleStop (st : Store) (token : Option String)
    (apiResult : Except AxiosError Unit) : HandlerOut :=
  match apiResult with
  | .ok _ =>
    { store := st
      response := .json 200 (.simpleOk "success" "Playback stopped.")
      calls := [.putPause token] }
  | .error e =>
    { store := st
      response := .json 500 (.err
        { error := .message "Failed to stop playback.", details := some e.message })
      calls := [.putPause token] }

/-- `PUT /spotify/play/:trackUri`: decodes the path parameter with
`decodeURIComponent` (a thrown `URIError` on malformed input is caught by the
same `catch`, answering 500 with `details = err.message` and performing no
outbound call), PUTs play with body `{uris: [trackUri]}` and bearer token from
`req.query.token`; on success answers the started-playing message, on any
error a fixed 500 body with `details = err.message`; never touches the
store. -/
def handlePlay (st : Store) (rawTrackUri : String) (token : Option String)
    (apiResult : Except AxiosError Unit) : HandlerOut :=
  match decodeURIComponent rawTrackUri with
  | none =>
    { store := st
      response := .json 500 (.err
        { error := .message "Failed to start playback.", details := some "URI malformed" })
      calls := [] }
  | some trackUri =>
    match apiResult with
    | .ok _ =>
      { store := st
        response := .json 200 (.simpleOk "success" ("Started playing: " ++ trackUri))
        calls := [.putPlay [trackUri] token] }
    | .error e =>
      { store := st
        response := .json 500 (.err
          { error := .message "Failed to start playback.", details := some e.message })
        calls := [.putPlay [trackUri] token] }

/-- One inbound request to the server, with the oracle results of the
outbound calls its handler would make. -/
inductive Request where
  | login
  | callback (exchange : Except AxiosError TokenData)
  | spotify (api : RemoteApi)
  | stop (token : Option String) (apiResult : Except AxiosError Unit)
  | play (rawTrackUri : String) (token : Option String)
      (apiResult : Except AxiosError Unit)

/-- Dispatch an inbound request to its handler. -/
def handle (env : Env) (st : Store) : Request → HandlerOut
  | .login => handleLogin env st
  | .callback ex => handleCallback st ex
  | .spotify api => handleSpotify st api
  | .stop tok r => handleStop st tok r
  | .play uri tok r => handlePlay st uri tok r

/-- Is an outbound call a POST to the provider token endpoint (the only kind
of call a token refresh or exchange would be)? -/
def isTokenEndpointCall : OutCall → Bool
  | .postToken => true
  | _ => false

/-- Number of calls to the provider token endpoint in a trace. -/
def refreshCalls (tr : List OutCall) : Nat :=
  (tr.filter isTokenEndpointCall).length

/-- Number of GETs of a given URL in a trace. -/
def getCallsTo (url : String) (tr : List OutCall) : Nat :=
  (tr.filter fun c =>
    match c with
    | .get u _ => u == url
    | _ => false).length

/-- Spec-side description of an expired-token message: the provider error body
carries a message containing the substring "expired" case-insensitively. -/
def SpecExpiredMessage (r : ErrResponse) : Prop :=
  ∃ se m, r.data.error = some se ∧ se.message = some m ∧
    "expired".toList <:+: lowerChars m

/-- Spec-side description of an HTTP 401 authentication failure. -/
def StatusIs401 (e : AxiosError) : Prop :=
  ∃ r, e.response = some r ∧ r.status = 401

/-- Did the oracle inputs of this request make its handler fail (exchange
error, missing cached token, remote API error on a call the handler reaches,
or playback-call error)? -/
def requestFails (st : Store) : Request → Bool
  | .login => false
  | .callback (.ok _) => false
  | .callback (.error _) => true
  | .spotify api =>
    match st.cachedAccessToken with
    | none => true
    | some _ =>
      match api.topTracks with
      | .error _ => true
      | .ok _ =>
        match api.currentlyPlaying with
        | .error _ => true
        | .ok _ => false
  | .stop _ (.ok _) => false
  | .stop _ (.error _) => true
  | .play _ _ (.ok _) => false
  | .play _ _ (.error _) => true

/-! Concrete fixtures used by witnesses and counterexamples. -/

def envEx : Env :=
  { clientId := "cid", clientSecret := "sec"
    redirectUri := "http://localhost:8888/callback" }

def err401 : AxiosError :=
  { response := some { status := 401, data := { error := none } }
    message := "Request failed with status code 401" }

def expiredResp : ErrResponse :=
  { status := 400
    data := { error := some { message := some "The access token EXPIRED" } } }

def expiredMsgErr : AxiosError :=
  { response := some expiredResp
    message := "Request failed with status code 400" }

def err503 : AxiosError :=
  { response := some { status := 503
                       data := { error := some { message := some "Service unavailable" } } }
    message := "Request failed with status code 503" }

def netErr : AxiosError := { response := none, message := "socket hang up" }

def storeEx : Store := { cachedAccessToken := some "A1", cachedRefreshToken := some "R1" }

def api401 : RemoteApi :=
  { topTracks := .error err401, currentlyPlaying := .error err401 }

def trackEx : Track :=
  { id := "t1", name := "Song One", artists := [{ name := "Ann" }, { name := "Bo" }]
    uri := "spotify:track:t1" }

def apiOk : RemoteApi :=
  { topTracks := .ok { items := [trackEx] }
    currentlyPlaying := .ok { item := some trackEx } }

/-- Auxiliary: a 401 status makes `isExpiredAuthError` fire. -/
theorem isExpiredAuthError_of_401 {e : AxiosError} (h : StatusIs401 e) :
    isExpiredAuthError e = true := by
  obtain ⟨r, hr, hs⟩ := h
  unfold isExpiredAuthError
  rw [hr]
  simp [hs]

end SpotifyProxy

namespace SpotifyProxy

/-- C2: with no cached Credential, `GET /spotify` redirects to `/login` and
performs zero outbound calls to the remote API. -/
theorem spotify_no_credential_redirects (env : Env) (st : Store)
    (api : RemoteApi) (h : st.cachedAccessToken = none) :
    (handle env st (.spotify api)).response = .redirect "/login" ∧
    (handle env st (.spotify api)).calls = [] := by
  simp [handle, handleSpotify, h]

/-- Witness for C2 at a concrete empty store and a concrete remote API. -/
theorem spotify_no_credential_redirects_witness :
    (handle envEx { cachedAccessToken := none, cachedRefreshToken := some "R1" }
        (.spotify api401)).response = .redirect "/login" ∧
    (handle envEx { cachedAccessToken := none, cachedRefreshToken := some "R1" }
        (.spotify api401)).calls = [] :=
  spotify_no_credential_redirects envEx _ api401 rfl

/-- C3: an error response from the remote API is classified as an
expired-token authentication failure iff its status is 401 or the provider
error body carries a message containing "expired" case-insensitively. -/
theorem auth_failure_classification (e : AxiosError) (r : ErrResponse)
    (h : e.response = some r) :
    isExpiredAuthError e = true ↔ (r.status = 401 ∨ SpecExpiredMessage r) := by
  unfold isExpiredAuthError SpecExpiredMessage
  rw [h]
  cases hre : r.data.error with
  | none => simp [hre]
  | some se =>
    cases hm : se.message with
    | none => simp [hre, hm]
    | some m =>
      simp only [hre, hm, Bool.or_eq_true, beq_iff_eq, Bool.and_eq_true,
        Bool.not_eq_true', beq_eq_false_iff_ne, ne_eq, decide_eq_true_eq,
        Option.some.injEq]
      constructor
      · rintro (hs | ⟨hne, hinf⟩)
        · exact Or.inl hs
        · exact Or.inr ⟨se, m, rfl, hm, hinf⟩
      · rintro (hs | ⟨se', m', rfl, hmsg, hinf⟩)
        · exact Or.inl hs
        · rw [hm] at hmsg
          injection hmsg with hm'
          subst hm'
          refine Or.inr ⟨?_, hinf⟩
          intro hmm
          subst hmm
          obtain ⟨s, t, hst⟩ := hinf
          have h1 := congrArg List.length hst
          have h7 : ("expired".toList).length = 7 := rfl
          have h0 : (lowerChars "").length = 0 := rfl
          simp only [List.length_append, h7, h0] at h1
          omega

/-- Witness for C3 at a concrete 400 response whose message says "EXPIRED". -/
theorem auth_failure_classification_witness :
    isExpiredAuthError expiredMsgErr = true ∧
    (isExpiredAuthError expiredMsgErr = true ↔
      (expiredResp.status = 401 ∨ SpecExpiredMessage expiredResp)) :=
  ⟨by decide, auth_failure_classification expiredMsgErr expiredResp rfl⟩

/-- C5 counterexample: a successful exchange whose response omits
`refresh_token` clears the cached refresh token instead of retaining the
prior value `"oldR"`. -/
theorem refresh_token_retention_counterexample :
    (handle envEx { cachedAccessToken := some "oldA", cachedRefreshToken := some "oldR" }
        (.callback (.ok { access_token := some "newA", refresh_token := none }))).store.cachedRefreshToken
      ≠ some "oldR" ∧
    (handle envEx { cachedAccessToken := some "oldA", cachedRefreshToken := some "oldR" }
        (.callback (.ok { access_token := some "newA", refresh_token := none }))).store.cachedRefreshToken
      = none := by
  refine ⟨?_, rfl⟩
  decide

/-- C5 amended: a successful exchange unconditionally overwrites both cached
tokens with the response's fields; when the response omits `refresh_token`,
the cached refresh token is cleared (set to `none`), not retained. -/
theorem callback_overwrites_refresh_token (env : Env) (st : Store)
    (d : TokenData) (h : d.refresh_token = none) :
    (handle env st (.callback (.ok d))).store.cachedAccessToken = d.access_token ∧
    (handle env st (.callback (.ok d))).store.cachedRefreshToken = none := by
  simp [handle, handleCallback, h]

/-- Witness for the amended C5 at a concrete store and token response. -/
theorem callback_overwrites_refresh_token_witness :
    (handle envEx { cachedAccessToken := some "oldA", cachedRefreshToken := some "oldR" }
        (.callback (.ok { access_token := some "newA", refresh_token := none }))).store.cachedAccessToken
      = some "newA" ∧
    (handle envEx { cachedAccessToken := some "oldA", cachedRefreshToken := some "oldR" }
        (.callback (.ok { access_token := some "newA", refresh_token := none }))).store.cachedRefreshToken
      = none :=
  callback_overwrites_refresh_token envEx _ _ rfl

/-- C6: a failed authorization-code exchange answers 500 with the provider's
error payload (or the error message when no HTTP response exists) and leaves
the token store unchanged. -/
theorem callback_failure_preserves_store (env : Env) (st : Store)
    (e : AxiosError) :
    (handle env st (.callback (.error e))).store = st ∧
    (handle env st (.callback (.error e))).response =
      .json 500 (.err { error := errorPayload e, details := none }) := by
  simp [handle, handleCallback]

/-- C1 counterexample: with a Credential holding a refresh token cached and a
concrete 401 from the top-tracks call, the server performs zero calls to the
provider token endpoint (not the claimed exactly one) and issues the request
once with no retry; it redirects to `/login` instead. -/
theorem refresh_retry_counterexample :
    refreshCalls (handle envEx storeEx (.spotify api401)).calls ≠ 1 ∧
    refreshCalls (handle envEx storeEx (.spotify api401)).calls = 0 ∧
    getCallsTo SPOTIFY_TOP_TRACKS_URL (handle envEx storeEx (.spotify api401)).calls = 1 ∧
    (handle envEx storeEx (.spotify api401)).response = .redirect "/login" := by
  refine ⟨by decide, rfl, ?_, rfl⟩
  decide

/-- C1 amended: when a 401 is observed from the remote API while a Credential
with a refresh token is stored, the handler performs zero refresh calls
against the provider token endpoint and zero retries (each request is issued
at most once); it responds with a redirect to `/login`. -/
theorem observed_401_redirects_without_refresh (env : Env) (st : Store)
    (api : RemoteApi) (a rt : String) (e : AxiosError)
    (hAcc : st.cachedAccessToken = some a)
    (_hRef : st.cachedRefreshToken = some rt)
    (h401 : StatusIs401 e)
    (hObs : api.topTracks = .error e ∨
      (∃ tt, api.topTracks = .ok tt ∧ api.currentlyPlaying = .error e)) :
    (handle env st (.spotify api)).response = .redirect "/login" ∧
    refreshCalls (handle env st (.spotify api)).calls = 0 ∧
    getCallsTo SPOTIFY_TOP_TRACKS_URL (handle env st (.spotify api)).calls ≤ 1 ∧
    getCallsTo (SPOTIFY_PLAYER_URL ++ "/currently-playing")
      (handle env st (.spotify api)).calls ≤ 1 := by
  have hexp := isExpiredAuthError_of_401 h401
  have b1 : (SPOTIFY_TOP_TRACKS_URL == SPOTIFY_PLAYER_URL ++ "/currently-playing") = false := by
    decide
  have b2 : (SPOTIFY_PLAYER_URL ++ "/currently-playing" == SPOTIFY_TOP_TRACKS_URL) = false := by
    decide
  have hne : SPOTIFY_TOP_TRACKS_URL ≠ SPOTIFY_PLAYER_URL ++ "/currently-playing" := by
    decide
  have hne' : SPOTIFY_PLAYER_URL ++ "/currently-playing" ≠ SPOTIFY_TOP_TRACKS_URL := by
    decide
  rcases hObs with hTop | ⟨tt, hTop, hPlay⟩
  · simp [handle, handleSpotify, hAcc, hTop, fetchWithSpotifyAuth, hexp,
      refreshCalls, getCallsTo, isTokenEndpointCall, b1, b2, hne, hne']
  · simp [handle, handleSpotify, hAcc, hTop, hPlay, fetchWithSpotifyAuth, hexp,
      refreshCalls, getCallsTo, isTokenEndpointCall, b1, b2, hne, hne']

/-- Witness for the amended C1 at a concrete store and a concrete 401. -/
theorem observed_401_redirects_without_refresh_witness :
    (handle envEx storeEx (.spotify api401)).response = .redirect "/login" ∧
    refreshCalls (handle envEx storeEx (.spotify api401)).calls = 0 ∧
    getCallsTo SPOTIFY_TOP_TRACKS_URL (handle envEx storeEx (.spotify api401)).calls ≤ 1 ∧
    getCallsTo (SPOTIFY_PLAYER_URL ++ "/currently-playing")
      (handle envEx storeEx (.spotify api401)).calls ≤ 1 :=
  observed_401_redirects_without_refresh envEx storeEx api401 "A1" "R1" err401
    rfl rfl ⟨_, rfl, rfl⟩ (Or.inl rfl)

/-- C4: a non-auth error from either outbound call is propagated unchanged:
the handler answers 500 with `err.response?.data || err.message`, triggers no
refresh call and issues no redirect. -/
theorem non_auth_error_propagates (env : Env) (st : Store) (api : RemoteApi)
    (tok : String) (e : AxiosError)
    (hAcc : st.cachedAccessToken = some tok)
    (hNonAuth : isExpiredAuthError e = false)
    (hObs : api.topTracks = .error e ∨
      (∃ tt, api.topTracks = .ok tt ∧ api.currentlyPlaying = .error e)) :
    (handle env st (.spotify api)).response =
      .json 500 (.err { error := errorPayload e, details := none }) ∧
    refreshCalls (handle env st (.spotify api)).calls = 0 ∧
    (handle env st (.spotify api)).response.isRedirect = false := by
  rcases hObs with hTop | ⟨tt, hTop, hPlay⟩
  · simp [handle, handleSpotify, hAcc, hTop, fetchWithSpotifyAuth, hNonAuth,
      refreshCalls, isTokenEndpointCall, Response.isRedirect]
  · simp [handle, handleSpotify, hAcc, hTop, hPlay, fetchWithSpotifyAuth,
      hNonAuth, refreshCalls, isTokenEndpointCall, Response.isRedirect]

/-- Witness for C4 at a concrete network failure on the currently-playing
call: the 500 body carries `err.message` since no HTTP response exists. -/
theorem non_auth_error_propagates_witness :
    (handle envEx storeEx
        (.spotify { topTracks := .ok { items := [trackEx] }
                    currentlyPlaying := .error netErr })).response =
      .json 500 (.err { error := .message "socket hang up", details := none }) ∧
    refreshCalls (handle envEx storeEx
        (.spotify { topTracks := .ok { items := [trackEx] }
                    currentlyPlaying := .error netErr })).calls = 0 ∧
    (handle envEx storeEx
        (.spotify { topTracks := .ok { items := [trackEx] }
                    currentlyPlaying := .error netErr })).response.isRedirect = false :=
  non_auth_error_propagates envEx storeEx _ "A1" netErr rfl rfl
    (Or.inr ⟨_, rfl, rfl⟩)

/-- C7: a successful `GET /spotify` answers 200 with status `"success"`, the
top tracks projected onto exactly `{id, name, artist, uri}` with artist names
joined by `", "`, and `currentlyPlaying` projected onto `{name, artist, uri}`
when an item is playing and `null` (`none`) when the player response carries
no item. -/
theorem spotify_success_shape (env : Env) (st : Store) (api : RemoteApi)
    (tok : String) (tt : TopTracksData) (pd : PlayingData)
    (hAcc : st.cachedAccessToken = some tok)
    (hTop : api.topTracks = .ok tt)
    (hPlay : api.currentlyPlaying = .ok pd) :
    (handle env st (.spotify api)).response = .json 200 (.spotifyOk
      { status := "success"
        topTracks := tt.items.map projTrack
        currentlyPlaying := pd.item.map projPlaying
        note := spotifyNote }) ∧
    (∀ t, projTrack t = { id := t.id, name := t.name
                          artist := String.intercalate ", " (t.artists.map Artist.name)
                          uri := t.uri }) ∧
    (∀ t, projPlaying t = { name := t.name
                            artist := String.intercalate ", " (t.artists.map Artist.name)
                            uri := t.uri }) ∧
    (pd.item = none → (pd.item.map projPlaying : Option PlayingProj) = none) := by
  refine ⟨?_, fun t => rfl, fun t => rfl, fun h => by simp [h]⟩
  simp [handle, handleSpotify, hAcc, hTop, hPlay, fetchWithSpotifyAuth]

/-- Witness for C7 at a concrete store and concrete track data. -/
theorem spotify_success_shape_witness :
    (handle envEx storeEx (.spotify apiOk)).response = .json 200 (.spotifyOk
      { status := "success"
        topTracks := [{ id := "t1", name := "Song One", artist := "Ann, Bo"
                        uri := "spotify:track:t1" }]
        currentlyPlaying := some { name := "Song One", artist := "Ann, Bo"
                                   uri := "spotify:track:t1" }
        note := spotifyNote }) := by
  have h := spotify_success_shape envEx storeEx apiOk "A1"
    { items := [trackEx] } { item := some trackEx } rfl rfl rfl
  exact h.1

/-- C8: `PUT /spotify/play/:trackUri` URL-decodes the path parameter, issues a
play request whose body is `uris = [decoded]` (with the bearer token from the
request), and on success answers `{status: "success",
message: "Started playing: <decoded>"}`. -/
theorem play_decodes_and_reports (env : Env) (st : Store) (raw uri : String)
    (tok : Option String) (hDec : decodeURIComponent raw = some uri) :
    (handle env st (.play raw tok (.ok ()))).calls = [.putPlay [uri] tok] ∧
    (handle env st (.play raw tok (.ok ()))).response =
      .json 200 (.simpleOk "success" ("Started playing: " ++ uri)) := by
  simp [handle, handlePlay, hDec]

/-- C9: for every inbound request on every endpoint, every failure produces a
response — a redirect, or a JSON error body with HTTP status 500 carrying an
`error` field and an optional `details` field; no failure is silently
dropped. -/
theorem failures_redirect_or_500 (env : Env) (st : Store) (req : Request)
    (h : requestFails st req = true) :
    (∃ loc, (handle env st req).response = .redirect loc) ∨
    (∃ ev d, (handle env st req).response =
      .json 500 (.err { error := ev, details := d })) := by
  cases req with
  | login => simp [requestFails] at h
  | callback ex =>
    cases ex with
    | ok d => simp [requestFails] at h
    | error e =>
      exact Or.inr ⟨errorPayload e, none, by simp [handle, handleCallback]⟩
  | spotify api =>
    cases hAcc : st.cachedAccessToken with
    | none => exact Or.inl ⟨"/login", by simp [handle, handleSpotify, hAcc]⟩
    | some tok =>
      cases hTop : api.topTracks with
      | error e =>
        cases hexp : isExpiredAuthError e with
        | true =>
          exact Or.inl ⟨"/login",
            by simp [handle, handleSpotify, hAcc, hTop, fetchWithSpotifyAuth, hexp]⟩
        | false =>
          exact Or.inr ⟨errorPayload e, none,
            by simp [handle, handleSpotify, hAcc, hTop, fetchWithSpotifyAuth, hexp]⟩
      | ok tt =>
        cases hPlay : api.currentlyPlaying with
        | error e =>
          cases hexp : isExpiredAuthError e with
          | true =>
            exact Or.inl ⟨"/login",
              by simp [handle, handleSpotify, hAcc, hTop, hPlay,
                fetchWithSpotifyAuth, hexp]⟩
          | false =>
            exact Or.inr ⟨errorPayload e, none,
              by simp [handle, handleSpotify, hAcc, hTop, hPlay,
                fetchWithSpotifyAuth, hexp]⟩
        | ok pd => simp [requestFails, hAcc, hTop, hPlay] at h
  | stop tok r =>
    cases r with
    | ok u => simp [requestFails] at h
    | error e =>
      exact Or.inr ⟨.message "Failed to stop playback.", some e.message,
        by simp [handle, handleStop]⟩
  | play raw tok r =>
    cases hDec : decodeURIComponent raw with
    | none =>
      exact Or.inr ⟨.message "Failed to start playback.", some "URI malformed",
        by simp [handle, handlePlay, hDec]⟩
    | some uri =>
      cases r with
      | ok u => simp [requestFails] at h
      | error e =>
        exact Or.inr ⟨.message "Failed to start playback.", some e.message,
          by simp [handle, handlePlay, hDec]⟩

/-- Witness for C9 at a concrete failing request (`PUT /spotify/stop` hitting
a network failure). -/
theorem failures_redirect_or_500_witness :
    requestFails storeEx (.stop none (.error netErr)) = true ∧
    ((∃ loc, (handle envEx storeEx (.stop none (.error netErr))).response =
        .redirect loc) ∨
     (∃ ev d, (handle envEx storeEx (.stop none (.error netErr))).response =
        .json 500 (.err { error := ev, details := d }))) :=
  ⟨rfl, failures_redirect_or_500 envEx storeEx _ rfl⟩

/-- C10: the playback endpoints take the bearer token from the request's
`token` query parameter — the cached Credential is neither read (two stores
yield the same response) nor written (the store is returned unchanged) — and
any provider failure, 401 included, yields the fixed 500 JSON error with
`details = err.message`: never a redirect and never a token-endpoint call. -/
theorem playback_endpoints_use_query_token (env : Env) (st st2 : Store)
    (tok : Option String) (raw uri : String) (e : AxiosError)
    (hDec : decodeURIComponent raw = some uri) :
    (∀ r, (handle env st (.stop tok r)).store = st ∧
          (handle env st (.stop tok r)).calls = [.putPause tok] ∧
          (handle env st (.stop tok r)).response =
            (handle env st2 (.stop tok r)).response) ∧
    (∀ r, (handle env st (.play raw tok r)).store = st ∧
          (handle env st (.play raw tok r)).calls = [.putPlay [uri] tok] ∧
          (handle env st (.play raw tok r)).response =
            (handle env st2 (.play raw tok r)).response) ∧
    ((handle env st (.stop tok (.error e))).response =
        .json 500 (.err { error := .message "Failed to stop playback."
                          details := some e.message }) ∧
      (handle env st (.stop tok (.error e))).response.isRedirect = false ∧
      refreshCalls (handle env st (.stop tok (.error e))).calls = 0) ∧
    ((handle env st (.play raw tok (.error e))).response =
        .json 500 (.err { error := .message "Failed to start playback."
                          details := some e.message }) ∧
      (handle env st (.play raw tok (.error e))).response.isRedirect = false ∧
      refreshCalls (handle env st (.play raw tok (.error e))).calls = 0) := by
  refine ⟨fun r => ?_, fun r => ?_, ?_, ?_⟩
  · cases r <;> simp [handle, handleStop]
  · cases r <;> simp [handle, handlePlay, hDec]
  · simp [handle, handleStop, Response.isRedirect, refreshCalls,
      isTokenEndpointCall]
  · simp [handle, handlePlay, hDec, Response.isRedirect, refreshCalls,
      isTokenEndpointCall]

/-- Witness for C10 at a concrete query token, a concrete 401-free network
failure, and two different stores. -/
theorem playback_endpoints_use_query_token_witness :
    (handle envEx storeEx (.stop (some "QT") (.error netErr))).store = storeEx ∧
    (handle envEx storeEx (.stop (some "QT") (.error netErr))).calls =
      [.putPause (some "QT")] ∧
    (handle envEx storeEx (.stop (some "QT") (.error netErr))).response =
      .json 500 (.err { error := .message "Failed to stop playback."
                        details := some "socket hang up" }) ∧
    (handle envEx storeEx (.play "x" (some "QT") (.error netErr))).response =
      .json 500 (.err { error := .message "Failed to start playback."
                        details := some "socket hang up" }) := by
  have h := playback_endpoints_use_query_token envEx storeEx
    { cachedAccessToken := none, cachedRefreshToken := none }
    (some "QT") "x" "x" netErr rfl
  exact ⟨(h.1 (.error netErr)).1, (h.1 (.error netErr)).2.1, h.2.2.1.1,
    h.2.2.2.1⟩

/-- Witness for C8 at the spec's concrete scenario input
`PUT /spotify/play/spotify%3Atrack%3Aabc`. -/
theorem play_decodes_and_reports_witness :
    decodeURIComponent "spotify%3Atrack%3Aabc" = some "spotify:track:abc" ∧
    (handle envEx storeEx (.play "spotify%3Atrack%3Aabc" (some "A1") (.ok ()))).calls =
      [.putPlay ["spotify:track:abc"] (some "A1")] ∧
    (handle envEx storeEx (.play "spotify%3Atrack%3Aabc" (some "A1") (.ok ()))).response =
      .json 200 (.simpleOk "success" "Started playing: spotify:track:abc") :=
  ⟨rfl, play_decodes_and_reports envEx storeEx "spotify%3Atrack%3Aabc"
    "spotify:track:abc" (some "A1") rfl⟩

end SpotifyProxy

